import Mathlib

/-!
# Verification of the Willhaben realtime crawler backend

Shallow embedding of the core of `server/realtime_backend.py`
(classes `FreeProxyManager`, `ProxyManager`, `WebSocketManager`,
`WillhabenCrawler` and the FastAPI websocket endpoint), together with
proofs and refutations of the specification's claims about it.

Python strings are modelled as Lean `String` over ASCII (string
primitives are implemented structurally over `String.data` so that they
evaluate inside the kernel); Python `dict`s reachable from the parsed
`__NEXT_DATA__` JSON are modelled by the `Json` inductive below; machine
integers are `Int`/`Nat` (no overflow is relevant anywhere in this
code); fallible Python code (try/except) is modelled with `Option`,
`none` standing for a raised-and-caught exception on the paths the
source catches.
-/

set_option maxHeartbeats 1000000

/-! ## Python string primitives -/

/-- `str.split(sep)` for a one-character separator, on character lists:
splitting never yields an empty list (the empty input gives `[[]]`, as in
Python `"".split(sep) == ['']`). -/
def splitChar (sep : Char) : List Char → List (List Char)
  | [] => [[]]
  | c :: cs =>
    match splitChar sep cs with
    | [] => [[]]
    | h :: t => if c = sep then [] :: h :: t else (c :: h) :: t

/-- Python `s.split(sep)` for a one-character separator `sep`. -/
def pySplit (s : String) (sep : Char) : List String :=
  (splitChar sep s.data).map String.mk

/-- Python `s.strip()` (ASCII whitespace). -/
def pyStrip (s : String) : String :=
  ⟨((s.data.dropWhile Char.isWhitespace).reverse.dropWhile Char.isWhitespace).reverse⟩

/-- Numeric value of an ASCII digit character list. -/
def digitsValL (l : List Char) : Nat :=
  l.foldl (fun acc c => 10 * acc + (c.toNat - 48)) 0

/-- Numeric value of an ASCII digit string (the value `int(s)` returns on an
all-digit string). -/
def digitsVal (s : String) : Nat :=
  digitsValL s.data

/-- Python `str.isdigit` restricted to ASCII: nonempty and all characters
decimal digits. -/
def pyIsDigit (s : String) : Bool :=
  !s.data.isEmpty && s.data.all Char.isDigit

/-- Python `int(s)` as a partial function: strip whitespace, allow one
optional leading sign, then a nonempty run of decimal digits; `none` models
the `ValueError` the source catches.  (Underscore separators and non-ASCII
digits accepted by CPython are outside this ASCII model.) -/
def pyInt (s : String) : Option Int :=
  match (pyStrip s).data with
  | [] => none
  | c :: cs =>
    if c = '-' then
      if cs.isEmpty || !cs.all Char.isDigit then none else some (-(digitsValL cs : Int))
    else if c = '+' then
      if cs.isEmpty || !cs.all Char.isDigit then none else some ((digitsValL cs : Int))
    else
      if (c :: cs).all Char.isDigit then some ((digitsValL (c :: cs) : Int)) else none

/-! ## `FreeProxyManager.is_valid_ip` / `is_valid_port` / `parse_proxy_content`
(realtime_backend.py lines 129-174) -/

/-- `FreeProxyManager.is_valid_ip` (lines 153-166): split on `.`, require
exactly 4 parts, each an all-digit string whose value is at most 255
(`int(part) < 0` is impossible on a digit string, so it is not modelled). -/
def is_valid_ip (ip : String) : Bool :=
  if (pySplit ip '.').length ≠ 4 then false
  else (pySplit ip '.').all (fun part => pyIsDigit part && decide (digitsVal part ≤ 255))

/-- `FreeProxyManager.is_valid_port` (lines 168-174): `int(port)` must
succeed and lie in `1..65535`; a `ValueError` is caught and yields `False`. -/
def is_valid_port (port : String) : Bool :=
  match pyInt port with
  | some n => decide (1 ≤ n) && decide (n ≤ 65535)
  | none => false

/-- One iteration of the line loop in `FreeProxyManager.parse_proxy_content`
(lines 134-149): strip the line, skip it when empty, require a `:`
(equivalently at least two `split(':')` parts), strip ip and port and emit
`http://ip:port` exactly when both validate. -/
def parse_proxy_line (line0 : String) : Option String :=
  let line := pyStrip line0
  if line = "" then none
  else
    match pySplit line ':' with
    | ip0 :: port0 :: _ =>
      let ip := pyStrip ip0
      let port := pyStrip port0
      if is_valid_ip ip && is_valid_port port then
        some ("http://" ++ ip ++ ":" ++ port)
      else none
    | _ => none

/-- `FreeProxyManager.parse_proxy_content` (lines 129-151):
`content.strip().split('\n')`, then the per-line loop appending the
validated proxies in order. -/
def parse_proxy_content (content : String) : List String :=
  (pySplit (pyStrip content) '\n').filterMap parse_proxy_line

/-- Spec-side shape predicate for claim C10: the string is
`http://<ip>:<port>` where `<ip>` has exactly four dot-separated decimal
components each of value at most 255, and `<port>` parses as an integer
between 1 and 65535. -/
def isProxyUrlShaped (s : String) : Prop :=
  ∃ ip port : String,
    s = "http://" ++ ip ++ ":" ++ port ∧
    (pySplit ip '.').length = 4 ∧
    (∀ comp ∈ pySplit ip '.',
      comp ≠ "" ∧ comp.data.all Char.isDigit = true ∧ digitsVal comp ≤ 255) ∧
    ∃ n : Int, pyInt port = some n ∧ 1 ≤ n ∧ n ≤ 65535

lemma pyIsDigit_spec (s : String) (h : pyIsDigit s = true) :
    s ≠ "" ∧ s.data.all Char.isDigit = true := by
  unfold pyIsDigit at h
  simp only [Bool.and_eq_true, Bool.not_eq_true'] at h
  refine ⟨?_, h.2⟩
  intro hs
  rw [hs] at h
  simp at h

lemma is_valid_ip_components (ip : String) (h : is_valid_ip ip = true) :
    (pySplit ip '.').length = 4 ∧
    ∀ comp ∈ pySplit ip '.',
      comp ≠ "" ∧ comp.data.all Char.isDigit = true ∧ digitsVal comp ≤ 255 := by
  unfold is_valid_ip at h
  by_cases hl : (pySplit ip '.').length = 4
  · rw [hl] at h
    simp only [ne_eq, not_true_eq_false, if_false, List.all_eq_true, Bool.and_eq_true,
      decide_eq_true_eq] at h
    refine ⟨hl, fun comp hc => ?_⟩
    obtain ⟨hd, hv⟩ := h comp hc
    obtain ⟨hne, hall⟩ := pyIsDigit_spec comp hd
    exact ⟨hne, hall, hv⟩
  · rw [if_pos hl] at h
    exact absurd h (by simp)

lemma is_valid_port_range (port : String) (h : is_valid_port port = true) :
    ∃ n : Int, pyInt port = some n ∧ 1 ≤ n ∧ n ≤ 65535 := by
  unfold is_valid_port at h
  cases hp : pyInt port with
  | none => rw [hp] at h; exact absurd h (by simp)
  | some n =>
    rw [hp] at h
    simp only [Bool.and_eq_true, decide_eq_true_eq] at h
    exact ⟨n, rfl, h.1, h.2⟩

/-- **C10** (confirmed). Every string returned by
`FreeProxyManager.parse_proxy_content` has the form `http://<ip>:<port>`
with `<ip>` made of exactly four dot-separated decimal components each
between 0 and 255 and `<port>` parsing as an integer between 1 and 65535;
lines not of this shape are dropped (the function is total, so nothing is
raised). -/
theorem parse_proxy_content_wellformed (content p : String)
    (hp : p ∈ parse_proxy_content content) : isProxyUrlShaped p := by
  unfold parse_proxy_content at hp
  rw [List.mem_filterMap] at hp
  obtain ⟨line0, -, hline⟩ := hp
  unfold parse_proxy_line at hline
  by_cases hemp : pyStrip line0 = ""
  · simp [hemp] at hline
  · rw [if_neg hemp] at hline
    revert hline
    cases hsplit : pySplit (pyStrip line0) ':' with
    | nil => intro hline; simp at hline
    | cons ip0 rest =>
      cases rest with
      | nil => intro hline; simp at hline
      | cons port0 rest2 =>
        intro hline
        by_cases hv : (is_valid_ip (pyStrip ip0) && is_valid_port (pyStrip port0)) = true
        · simp only [hv, if_true, Option.some.injEq] at hline
          simp only [Bool.and_eq_true] at hv
          obtain ⟨h4, hcomps⟩ := is_valid_ip_components (pyStrip ip0) hv.1
          obtain ⟨n, hn, hn1, hn2⟩ := is_valid_port_range (pyStrip port0) hv.2
          exact ⟨pyStrip ip0, pyStrip port0, hline.symm, h4, hcomps, n, hn, hn1, hn2⟩
        · simp [hv] at hline

/-- Concrete instantiation of `parse_proxy_content_wellformed`: the parser
applied to a mixed good/garbage content yields the well-formed proxy URL. -/
theorem parse_proxy_content_wellformed_witness :
    isProxyUrlShaped "http://1.2.3.4:8080" :=
  parse_proxy_content_wellformed "1.2.3.4:8080\nnot a proxy\n999.1.1.1:80"
    "http://1.2.3.4:8080" (by decide)

/-! ## Change detection in `WillhabenCrawler.crawl_once` (lines 1073-1092)

`seen_ids` is a Python `set` created once in `WillhabenCrawler.__init__`
(line 486); the only mutation anywhere in the program is the
`seen_ids.add` inside the detection loop of `crawl_once` (line 1077) —
there is no discard/remove/clear.  We model the set as a list used only
through membership, and a crawl cycle by the ids of the listings it
parsed. -/

/-- The new-listing detection loop of `crawl_once` (lines 1074-1078): for
each listing id in arrival order, if it is not in `seen_ids`, add it and
append the listing to `new_listings`.  Returns the updated `seen_ids` and
the `new_listings` of this cycle. -/
def crawl_once_detect (seen : List String) : List String → List String × List String
  | [] => (seen, [])
  | i :: rest =>
    if i ∈ seen then crawl_once_detect seen rest
    else
      let r := crawl_once_detect (i :: seen) rest
      (r.1, i :: r.2)

/-- A sequence of crawl cycles: thread `seen_ids` through
`crawl_once_detect` and collect each cycle's new-listings output. -/
def crawl_cycles (seen : List String) : List (List String) → List String × List (List String)
  | [] => (seen, [])
  | b :: bs =>
    let r1 := crawl_once_detect seen b
    let r2 := crawl_cycles r1.1 bs
    (r2.1, r1.2 :: r2.2)

lemma crawl_once_detect_seen_subset (batch : List String) :
    ∀ seen : List String, seen ⊆ (crawl_once_detect seen batch).1 := by
  induction batch with
  | nil => intro seen; simp [crawl_once_detect]
  | cons i rest ih =>
    intro seen
    unfold crawl_once_detect
    by_cases hi : i ∈ seen
    · rw [if_pos hi]; exact ih seen
    · rw [if_neg hi]
      exact fun x hx => ih (i :: seen) (List.mem_cons_of_mem i hx)

lemma crawl_once_detect_out_subset (batch : List String) :
    ∀ seen x, x ∈ (crawl_once_detect seen batch).2 → x ∈ (crawl_once_detect seen batch).1 := by
  induction batch with
  | nil => intro seen x hx; simp [crawl_once_detect] at hx
  | cons i rest ih =>
    intro seen x hx
    unfold crawl_once_detect at hx ⊢
    by_cases hi : i ∈ seen
    · rw [if_pos hi] at hx ⊢; exact ih seen x hx
    · rw [if_neg hi] at hx ⊢
      rcases List.mem_cons.mp hx with h | h
      · rw [h]
        exact crawl_once_detect_seen_subset rest (i :: seen) (List.mem_cons_self i seen)
      · exact ih (i :: seen) x h

lemma crawl_once_detect_seen_not_out (batch : List String) :
    ∀ seen x, x ∈ seen → x ∉ (crawl_once_detect seen batch).2 := by
  induction batch with
  | nil => intro seen x _; simp [crawl_once_detect]
  | cons i rest ih =>
    intro seen x hx
    unfold crawl_once_detect
    by_cases hi : i ∈ seen
    · rw [if_pos hi]; exact ih seen x hx
    · rw [if_neg hi]
      intro hmem
      rcases List.mem_cons.mp hmem with h | h
      · exact hi (h ▸ hx)
      · exact ih (i :: seen) x (List.mem_cons_of_mem i hx) h

lemma crawl_cycles_seen_subset (batches : List (List String)) :
    ∀ seen : List String, seen ⊆ (crawl_cycles seen batches).1 := by
  induction batches with
  | nil => intro seen; simp [crawl_cycles]
  | cons b bs ih =>
    intro seen
    unfold crawl_cycles
    exact fun x hx => ih _ (crawl_once_detect_seen_subset b seen hx)

lemma crawl_cycles_seen_not_in_outputs (batches : List (List String)) :
    ∀ (seen : List String) (x : String), x ∈ seen →
      ∀ (k : Nat) (out : List String),
        (crawl_cycles seen batches).2[k]? = some out → x ∉ out := by
  induction batches with
  | nil => intro seen x _ k out hk; simp [crawl_cycles] at hk
  | cons b bs ih =>
    intro seen x hx k out hk
    unfold crawl_cycles at hk
    match k with
    | 0 =>
      simp only [List.getElem?_cons_zero, Option.some.injEq] at hk
      exact hk ▸ crawl_once_detect_seen_not_out b seen x hx
    | k + 1 =>
      simp only [List.getElem?_cons_succ] at hk
      exact ih _ x (crawl_once_detect_seen_subset b seen hx) k out hk

/-- **C1** (confirmed). Across every sequence of crawl cycles the set of
seen ids only grows (the initial `seen_ids` is contained in the final
one), and an id emitted as new in cycle `i` is never again part of the
new-listings output of any later cycle `j`. -/
theorem seenIds_monotone_no_reemission (batches : List (List String)) (seen : List String) :
    seen ⊆ (crawl_cycles seen batches).1 ∧
    ∀ i j : Nat, i < j →
      ∀ outi outj : List String,
        (crawl_cycles seen batches).2[i]? = some outi →
        (crawl_cycles seen batches).2[j]? = some outj →
        ∀ x ∈ outi, x ∉ outj := by
  refine ⟨crawl_cycles_seen_subset batches seen, ?_⟩
  induction batches generalizing seen with
  | nil => intro i j _ outi outj hi; simp [crawl_cycles] at hi
  | cons b bs ih =>
    intro i j hij outi outj hi hj x hx
    unfold crawl_cycles at hi hj
    match i, j with
    | 0, j + 1 =>
      simp only [List.getElem?_cons_zero, Option.some.injEq] at hi
      simp only [List.getElem?_cons_succ] at hj
      have hxseen : x ∈ (crawl_once_detect seen b).1 :=
        crawl_once_detect_out_subset b seen x (hi ▸ hx)
      exact crawl_cycles_seen_not_in_outputs bs _ x hxseen j outj hj
    | i + 1, j + 1 =>
      simp only [List.getElem?_cons_succ] at hi hj
      exact ih _ i j (by omega) outi outj hi hj x hx

/-- Concrete instantiation of `seenIds_monotone_no_reemission`: the spec's
own scenario (cycle 1 yields ids A,B,C; cycle 2 yields B,D): B, emitted in
cycle 1, is absent from cycle 2's output, which is exactly `[D]`. -/
theorem seenIds_monotone_no_reemission_witness : ("B" : String) ∉ ["D"] :=
  (seenIds_monotone_no_reemission [["A", "B", "C"], ["B", "D"]] []).2 0 1 (by decide)
    ["A", "B", "C"] ["D"] (by decide) (by decide) "B" (by decide)

/-! ## `WillhabenCrawler.fetch_page` (lines 539-582)

The proxy selection (lines 547-551) yields `none` when
`Config.USE_PROXY_ROTATION` is off (the shipped default) or no proxy is
available; we model `fetch_page` after that selection, parametrised by
the selected proxy and by the outcome of the single `session.get` call
(an HTTP response with a status code, or a raised transport exception). -/

/-- Outcome of the one `session.get` request issued by `fetch_page`. -/
inductive AttemptResult where
  | http (code : Nat) (body : String)
  | exn
  deriving Repr, DecidableEq

/-- What one `fetch_page` call produces: the value returned to the caller,
the number of HTTP requests issued, and the proxies passed to
`ProxyManager.mark_proxy_failed`, in order. -/
structure FetchEffect where
  result : Option String
  requests : Nat
  failedMarked : List String
  deriving Repr, DecidableEq

/-- `WillhabenCrawler.fetch_page` (lines 553-582): issue the request once;
on status 200 return the body; on any other status mark the proxy failed
only when the status is 403, 407, 502 or 503, and return `None`; on a
transport exception mark the proxy failed (if one was used) and return
`None`.  There is no second attempt of any kind. -/
def fetch_page (proxy : Option String) (attempt : AttemptResult) : FetchEffect :=
  match attempt with
  | .http code body =>
    if code = 200 then
      { result := some body, requests := 1, failedMarked := [] }
    else
      { result := none, requests := 1,
        failedMarked :=
          match proxy with
          | some p => if code = 403 ∨ code = 407 ∨ code = 502 ∨ code = 503 then [p] else []
          | none => [] }
  | .exn =>
    { result := none, requests := 1, failedMarked := proxy.toList }

/-- **C2 counterexample**. A proxied request answered with HTTP 404 refutes
the claim: the proxy is not marked failed and no second (direct) request is
issued — `fetch_page` returns failure after the single attempt. -/
theorem fetch_page_no_retry_counterexample :
    ¬((fetch_page (some "http://1.2.3.4:80") (.http 404 "")).failedMarked
        = ["http://1.2.3.4:80"] ∧
      (fetch_page (some "http://1.2.3.4:80") (.http 404 "")).requests = 2) := by
  decide

/-- **C2** (corrected). `fetch_page` issues exactly one HTTP request per
call and never retries: any failure (non-200 status or transport error) is
reported to the caller immediately as a `None` result.  The proxy that was
used is marked failed on a transport error, but after a non-2xx status only
when the status is one of 403, 407, 502, 503 (e.g. not on 404). -/
theorem fetch_page_single_attempt (proxy : Option String) (attempt : AttemptResult) :
    (fetch_page proxy attempt).requests = 1 ∧
    ((fetch_page proxy attempt).result = none ↔
      ∀ body : String, attempt ≠ AttemptResult.http 200 body) ∧
    (attempt = AttemptResult.exn →
      (fetch_page proxy attempt).failedMarked = proxy.toList) ∧
    (∀ (code : Nat) (body : String), attempt = AttemptResult.http code body →
      code ∉ [403, 407, 502, 503] →
      (fetch_page proxy attempt).failedMarked = []) := by
  refine ⟨?_, ?_, ?_, ?_⟩
  · cases attempt with
    | http code body =>
      unfold fetch_page
      by_cases h : code = 200 <;> simp [h]
    | exn => rfl
  · cases attempt with
    | http code body =>
      unfold fetch_page
      by_cases h : code = 200
      · subst h
        simp
      · simp only [if_neg h]
        constructor
        · intro _ b heq
          injection heq with h1 _
          exact h h1
        · intro _
          trivial
    | exn => simp [fetch_page]
  · intro h
    subst h
    rfl
  · intro code body h hcode
    subst h
    simp only [List.mem_cons, List.not_mem_nil, or_false] at hcode
    simp only [fetch_page]
    by_cases h200 : code = 200
    · simp [h200]
    · rw [if_neg h200]
      cases proxy with
      | none => rfl
      | some p =>
        show (if code = 403 ∨ code = 407 ∨ code = 502 ∨ code = 503 then [p] else []) = []
        rw [if_neg hcode]

/-- Concrete instantiation of `fetch_page_single_attempt`: a proxied
request failing with HTTP 404 marks no proxy as failed. -/
theorem fetch_page_single_attempt_witness :
    (fetch_page (some "http://1.2.3.4:80") (.http 404 "x")).failedMarked = [] :=
  (fetch_page_single_attempt (some "http://1.2.3.4:80") (.http 404 "x")).2.2.2
    404 "x" rfl (by decide)

/-! ## A JSON value model

Used for the parsed `__NEXT_DATA__` payload, the extracted car model's
dynamically-typed fields, and the websocket message payloads. -/

/-- JSON values / Python objects reachable from `json.loads`. -/
inductive Json where
  | null
  | bool (b : Bool)
  | num (n : Int)
  | str (s : String)
  | arr (elems : List Json)
  | obj (fields : List (String × Json))
  deriving Repr, Inhabited

/-- Python `d[k]` / `d.get(k)` lookup on an object, `none` on a missing key
or a non-object (where the source would raise `KeyError`/`TypeError`/
`AttributeError`). -/
def Json.getKey? (j : Json) (k : String) : Option Json :=
  match j with
  | .obj kvs => (kvs.find? (fun kv => kv.1 == k)).map (fun kv => kv.2)
  | _ => none

/-- Python truthiness of a JSON value. -/
def Json.truthy : Json → Bool
  | .null => false
  | .bool b => b
  | .num n => n != 0
  | .str s => !s.data.isEmpty
  | .arr l => !l.isEmpty
  | .obj kvs => !kvs.isEmpty

mutual

/-- `json.dumps` on the JSON model (separators abstracted; only "one
serialization per broadcast" matters to the claims). -/
def Json.dump : Json → String
  | .null => "null"
  | .bool b => if b then "true" else "false"
  | .num n => toString n
  | .str s => "\x22" ++ s ++ "\x22"
  | .arr l => "[" ++ Json.dumpElems l ++ "]"
  | .obj kvs => "\x7b" ++ Json.dumpFields kvs ++ "\x7d"

def Json.dumpElems : List Json → String
  | [] => ""
  | [j] => Json.dump j
  | j :: rest => Json.dump j ++ ", " ++ Json.dumpElems rest

def Json.dumpFields : List (String × Json) → String
  | [] => ""
  | [(k, v)] => "\x22" ++ k ++ "\x22: " ++ Json.dump v
  | (k, v) :: rest => "\x22" ++ k ++ "\x22: " ++ Json.dump v ++ ", " ++ Json.dumpFields rest

end

/-! ## `WebSocketManager.broadcast` (lines 453-474)

Connections are abstract identifiers (`Nat`); `sendOk c` abstracts
whether `await connection.send_text(...)` succeeds or raises for
connection `c`. -/

/-- Result of one `broadcast` call: the serialized payload (`none` when the
early-return on an empty connection list fires before serialization), the
connections the payload was delivered to, in iteration order, and
`active_connections` after the failed ones are removed. -/
structure BroadcastResult where
  payload : Option String
  delivered : List Nat
  active : List Nat
  deriving Repr, DecidableEq

/-- `WebSocketManager.disconnect` (lines 439-443): remove the connection if
present (Python `list.remove` deletes the first occurrence). -/
def disconnect (active : List Nat) (conn : Nat) : List Nat :=
  if conn ∈ active then active.erase conn else active

/-- The send loop of `broadcast` (lines 461-466): iterate over the
registered connections; a successful `send_text` delivers the payload, a
raising one is caught and the connection collected into `disconnected`.
Returns (delivered, disconnected). -/
def broadcastSends (sendOk : Nat → Bool) : List Nat → List Nat × List Nat
  | [] => ([], [])
  | c :: cs =>
    let r := broadcastSends sendOk cs
    if sendOk c then (c :: r.1, r.2) else (r.1, c :: r.2)

/-- `WebSocketManager.broadcast` (lines 453-474): early-return when no
connection is registered; otherwise serialize the message once with
`json.dumps`, send the string to every registered connection collecting
the failing ones, then `disconnect` each failing connection. -/
def broadcast (active : List Nat) (sendOk : Nat → Bool) (message : Json) : BroadcastResult :=
  if active.isEmpty then
    { payload := none, delivered := [], active := active }
  else
    let msgStr := Json.dump message
    let r := broadcastSends sendOk active
    { payload := some msgStr, delivered := r.1, active := r.2.foldl disconnect active }

lemma disconnect_eq_erase (a : List Nat) (c : Nat) : disconnect a c = a.erase c := by
  unfold disconnect
  by_cases h : c ∈ a
  · rw [if_pos h]
  · rw [if_neg h, List.erase_of_not_mem h]

lemma broadcastSends_fst (sendOk : Nat → Bool) :
    ∀ l : List Nat, (broadcastSends sendOk l).1 = l.filter sendOk := by
  intro l
  induction l with
  | nil => rfl
  | cons c cs ih =>
    unfold broadcastSends
    by_cases h : sendOk c <;> simp [h, List.filter_cons, ih]

lemma broadcastSends_snd (sendOk : Nat → Bool) :
    ∀ l : List Nat, (broadcastSends sendOk l).2 = l.filter (fun c => !sendOk c) := by
  intro l
  induction l with
  | nil => rfl
  | cons c cs ih =>
    unfold broadcastSends
    by_cases h : sendOk c <;> simp [h, List.filter_cons, ih]

lemma foldl_disconnect_cons (x : Nat) :
    ∀ ds l : List Nat, x ∉ ds → ds.foldl disconnect (x :: l) = x :: ds.foldl disconnect l := by
  intro ds
  induction ds with
  | nil => intro l _; rfl
  | cons d ds ih =>
    intro l hx
    rw [List.mem_cons, not_or] at hx
    have hstep : disconnect (x :: l) d = x :: disconnect l d := by
      rw [disconnect_eq_erase, disconnect_eq_erase, List.erase_cons]
      rw [if_neg (by simpa using hx.1)]
    calc (d :: ds).foldl disconnect (x :: l)
        = ds.foldl disconnect (disconnect (x :: l) d) := rfl
      _ = ds.foldl disconnect (x :: disconnect l d) := by rw [hstep]
      _ = x :: ds.foldl disconnect (disconnect l d) := ih (disconnect l d) hx.2
      _ = x :: (d :: ds).foldl disconnect l := rfl

lemma foldl_disconnect_filter (sendOk : Nat → Bool) :
    ∀ l : List Nat, l.Nodup →
      (l.filter (fun c => !sendOk c)).foldl disconnect l = l.filter sendOk := by
  intro l
  induction l with
  | nil => intro _; rfl
  | cons x xs ih =>
    intro hnd
    rw [List.nodup_cons] at hnd
    by_cases hx : sendOk x
    · rw [List.filter_cons_of_neg (by simp [hx]), List.filter_cons_of_pos (by simp [hx])]
      rw [foldl_disconnect_cons x _ xs (fun hmem => hnd.1 (List.mem_of_mem_filter hmem))]
      rw [ih hnd.2]
    · rw [List.filter_cons_of_pos (by simp [hx]), List.filter_cons_of_neg (by simp [hx])]
      have hx0 : disconnect (x :: xs) x = xs := by
        rw [disconnect_eq_erase, List.erase_cons_head]
      calc (x :: xs.filter (fun c => !sendOk c)).foldl disconnect (x :: xs)
          = (xs.filter (fun c => !sendOk c)).foldl disconnect (disconnect (x :: xs) x) := rfl
        _ = (xs.filter (fun c => !sendOk c)).foldl disconnect xs := by rw [hx0]
        _ = xs.filter sendOk := ih hnd.2

/-- **C3** (confirmed). `broadcast` serializes the payload once and
attempts delivery to every registered connection: exactly the connections
whose send succeeds receive the single serialized payload (a failure never
blocks or aborts the rest, which keep their registration order), and by the
time `broadcast` returns every connection whose send failed has been
unregistered while all others remain registered. -/
theorem broadcast_isolated_failures (active : List Nat) (sendOk : Nat → Bool) (message : Json)
    (hnd : active.Nodup) :
    (broadcast active sendOk message).delivered = active.filter sendOk ∧
    (broadcast active sendOk message).active = active.filter sendOk ∧
    (∀ c ∈ active, sendOk c = false → c ∉ (broadcast active sendOk message).active) ∧
    (active ≠ [] → (broadcast active sendOk message).payload = some (Json.dump message)) := by
  by_cases hemp : active.isEmpty
  · rw [List.isEmpty_iff] at hemp
    subst hemp
    refine ⟨rfl, rfl, ?_, ?_⟩
    · intro c hc
      simp at hc
    · intro h
      exact absurd rfl h
  · have h1 : (broadcast active sendOk message).delivered = active.filter sendOk := by
      unfold broadcast
      rw [if_neg hemp]
      exact broadcastSends_fst sendOk active
    have h2 : (broadcast active sendOk message).active = active.filter sendOk := by
      unfold broadcast
      rw [if_neg hemp]
      show (broadcastSends sendOk active).2.foldl disconnect active = active.filter sendOk
      rw [broadcastSends_snd sendOk active]
      exact foldl_disconnect_filter sendOk active hnd
    refine ⟨h1, h2, ?_, ?_⟩
    · intro c _ hfail
      rw [h2]
      intro hmem
      have := List.of_mem_filter hmem
      rw [hfail] at this
      exact Bool.false_ne_true this
    · intro _
      unfold broadcast
      rw [if_neg hemp]

/-- Concrete instantiation of `broadcast_isolated_failures`: the spec's
scenario — three registered connections where the second send fails:
connections 1 and 3 received the payload and remain registered, connection
2 is gone. -/
theorem broadcast_isolated_failures_witness :
    (broadcast [1, 2, 3] (fun c => c != 2) (Json.str "update")).delivered = [1, 3] ∧
    (broadcast [1, 2, 3] (fun c => c != 2) (Json.str "update")).active = [1, 3] := by
  have h := broadcast_isolated_failures [1, 2, 3] (fun c => c != 2) (Json.str "update") (by decide)
  exact ⟨h.1.trans (by decide), h.2.1.trans (by decide)⟩

/-! ## `WillhabenCrawler.extract_car_from_advert` (lines 750-992)

The nested `car_model` dict built at lines 754-857.  Fields that the
source fills with raw attribute values (which may be any JSON value)
are typed `Json`; fields the source computes (`== '1'`,
`.lower() == 'true'`, f-strings, counts) get their computed type.
`crawled_at` (`datetime.now().isoformat()`) is a parameter.  The
function's enclosing try/except returns `None` on any raised error,
modelled as `Option`. -/

structure CarStatus where
  id : Json
  description : Json
  statusId : Json
  deriving Repr, Inhabited

structure CarInfo where
  make : Json
  model : Json
  model_specification : Json
  year : Json
  mileage : Json
  fuel_type : Json
  fuel_type_resolved : Json
  transmission : Json
  transmission_resolved : Json
  condition : Json
  condition_resolved : Json
  car_type : Json
  exterior_color : Json
  engine_power : Json
  no_of_seats : Json
  warranty : Json
  warranty_resolved : Json
  deriving Repr, Inhabited

structure Pricing where
  price : Json
  price_display : Json
  price_amount : Json
  is_private : Bool
  motor_price_bonus_trade_in : Bool
  motor_price_bonus_finance : Bool
  deriving Repr, Inhabited

structure CarLocation where
  address : Json
  postcode : Json
  city : Json
  state : Json
  country : Json
  coordinates : Json
  district : Json
  deriving Repr, Inhabited

structure Seller where
  org_id : Json
  org_name : Json
  org_uuid : Json
  is_private : Bool
  is_autodealer : Bool
  logo_url : String
  deriving Repr, Inhabited

structure CarImages where
  main_image : Json
  thumbnail : Json
  all_images : List Json
  image_count : Nat
  deriving Repr, Inhabited

structure Equipment where
  equipment_ids : Json
  equipment_resolved : Json
  deriving Repr, Inhabited

structure Timing where
  published : Json
  published_string : Json
  last_updated : Json
  is_bumped : Bool
  deriving Repr, Inhabited

structure Additional where
  defects_liability : Bool
  condition_report : Bool
  body_dyn : Json
  source : Json
  ad_uuid : Json
  fnmmocount : Int
  deriving Repr, Inhabited

structure CarModel where
  id : String
  title : Json
  url : Json
  seo_url : Json
  crawled_at : String
  status : CarStatus
  adTypeId : Json
  productId : Json
  verticalId : Json
  car_info : CarInfo
  pricing : Pricing
  location : CarLocation
  seller : Seller
  images : CarImages
  equipment : Equipment
  timing : Timing
  additional : Additional
  deriving Repr, Inhabited

/-- Python `str(...)` on a JSON value (container reprs abstracted by the
serializer; no claim depends on them). -/
def pyStr : Json → String
  | .null => "None"
  | .bool b => if b then "True" else "False"
  | .num n => toString n
  | .str s => s
  | .arr l => Json.dump (.arr l)
  | .obj kvs => Json.dump (.obj kvs)

/-- `attr_value == '1'` (equality of an arbitrary value with a string is
`False` in Python unless the value is that string). -/
def pyEqOne : Json → Bool
  | .str s => s == "1"
  | _ => false

/-- `attr_value.lower() == 'true'`: raises `AttributeError` (hence `none`)
when the value is not a string. -/
def pyLowerEqTrue : Json → Option Bool
  | .str s => some (s.toLower == "true")
  | _ => none

/-- `int(attr_value) if attr_value.isdigit() else 0`: raises (hence `none`)
when the value is not a string. -/
def pyFnmCount : Json → Option Int
  | .str s => some (if pyIsDigit s then (digitsVal s : Int) else 0)
  | _ => none

/-- `attr['values'][0]` under the guard that `attr['values']` is truthy:
head of a list, first character of a string, raises (`none`) otherwise. -/
def pyIndex0 : Json → Option Json
  | .arr (v :: _) => some v
  | .arr [] => none
  | .str s =>
    match s.data with
    | c :: _ => some (.str (String.mk [c]))
    | [] => none
  | _ => none

/-! Each Python assignment statement `car_model[section][field] = ...`
in the dispatch chain is one small setter, so the chain below stays a
compact term. -/

def CarInfo.setMake (ci : CarInfo) (v : Json) : CarInfo := { ci with make := v }
def CarInfo.setModel (ci : CarInfo) (v : Json) : CarInfo := { ci with model := v }
def CarInfo.setModelSpecification (ci : CarInfo) (v : Json) : CarInfo := { ci with model_specification := v }
def CarInfo.setYear (ci : CarInfo) (v : Json) : CarInfo := { ci with year := v }
def CarInfo.setMileage (ci : CarInfo) (v : Json) : CarInfo := { ci with mileage := v }
def CarInfo.setFuelType (ci : CarInfo) (v : Json) : CarInfo := { ci with fuel_type := v }
def CarInfo.setFuelTypeResolved (ci : CarInfo) (v : Json) : CarInfo := { ci with fuel_type_resolved := v }
def CarInfo.setTransmission (ci : CarInfo) (v : Json) : CarInfo := { ci with transmission := v }
def CarInfo.setTransmissionResolved (ci : CarInfo) (v : Json) : CarInfo := { ci with transmission_resolved := v }
def CarInfo.setCondition (ci : CarInfo) (v : Json) : CarInfo := { ci with condition := v }
def CarInfo.setConditionResolved (ci : CarInfo) (v : Json) : CarInfo := { ci with condition_resolved := v }
def CarInfo.setCarType (ci : CarInfo) (v : Json) : CarInfo := { ci with car_type := v }
def CarInfo.setExteriorColor (ci : CarInfo) (v : Json) : CarInfo := { ci with exterior_color := v }
def CarInfo.setEnginePower (ci : CarInfo) (v : Json) : CarInfo := { ci with engine_power := v }
def CarInfo.setNoOfSeats (ci : CarInfo) (v : Json) : CarInfo := { ci with no_of_seats := v }
def CarInfo.setWarranty (ci : CarInfo) (v : Json) : CarInfo := { ci with warranty := v }
def CarInfo.setWarrantyResolved (ci : CarInfo) (v : Json) : CarInfo := { ci with warranty_resolved := v }

def Pricing.setPrice (p : Pricing) (v : Json) : Pricing := { p with price := v }
def Pricing.setPriceDisplay (p : Pricing) (v : Json) : Pricing := { p with price_display := v }
def Pricing.setPriceAmount (p : Pricing) (v : Json) : Pricing := { p with price_amount := v }
def Pricing.setIsPrivate (p : Pricing) (b : Bool) : Pricing := { p with is_private := b }
def Pricing.setTradeIn (p : Pricing) (b : Bool) : Pricing := { p with motor_price_bonus_trade_in := b }
def Pricing.setFinance (p : Pricing) (b : Bool) : Pricing := { p with motor_price_bonus_finance := b }

def CarLocation.setAddress (l : CarLocation) (v : Json) : CarLocation := { l with address := v }
def CarLocation.setPostcode (l : CarLocation) (v : Json) : CarLocation := { l with postcode := v }
def CarLocation.setCity (l : CarLocation) (v : Json) : CarLocation := { l with city := v }
def CarLocation.setState (l : CarLocation) (v : Json) : CarLocation := { l with state := v }
def CarLocation.setCountry (l : CarLocation) (v : Json) : CarLocation := { l with country := v }
def CarLocation.setCoordinates (l : CarLocation) (v : Json) : CarLocation := { l with coordinates := v }
def CarLocation.setDistrict (l : CarLocation) (v : Json) : CarLocation := { l with district := v }

def Seller.setOrgId (se : Seller) (v : Json) : Seller := { se with org_id := v }
def Seller.setOrgName (se : Seller) (v : Json) : Seller := { se with org_name := v }
def Seller.setOrgUuid (se : Seller) (v : Json) : Seller := { se with org_uuid := v }
def Seller.setIsPrivate (se : Seller) (b : Bool) : Seller := { se with is_private := b }
def Seller.setIsAutodealer (se : Seller) (b : Bool) : Seller := { se with is_autodealer := b }
def Seller.setLogoUrl (se : Seller) (u : String) : Seller := { se with logo_url := u }

def Equipment.setIds (e : Equipment) (v : Json) : Equipment := { e with equipment_ids := v }
def Equipment.setResolved (e : Equipment) (v : Json) : Equipment := { e with equipment_resolved := v }

def Timing.setPublished (t : Timing) (v : Json) : Timing := { t with published := v }
def Timing.setPublishedString (t : Timing) (v : Json) : Timing := { t with published_string := v }
def Timing.setLastUpdated (t : Timing) (v : Json) : Timing := { t with last_updated := v }
def Timing.setIsBumped (t : Timing) (b : Bool) : Timing := { t with is_bumped := b }

def Additional.setDefectsLiability (a : Additional) (b : Bool) : Additional := { a with defects_liability := b }
def Additional.setConditionReport (a : Additional) (b : Bool) : Additional := { a with condition_report := b }
def Additional.setBodyDyn (a : Additional) (v : Json) : Additional := { a with body_dyn := v }
def Additional.setSource (a : Additional) (v : Json) : Additional := { a with source := v }
def Additional.setAdUuid (a : Additional) (v : Json) : Additional := { a with ad_uuid := v }
def Additional.setFnmmocount (a : Additional) (n : Int) : Additional := { a with fnmmocount := n }

def CarModel.withCarInfo (cm : CarModel) (ci : CarInfo) : CarModel := { cm with car_info := ci }
def CarModel.withPricing (cm : CarModel) (p : Pricing) : CarModel := { cm with pricing := p }
def CarModel.withLocation (cm : CarModel) (l : CarLocation) : CarModel := { cm with location := l }
def CarModel.withSeller (cm : CarModel) (se : Seller) : CarModel := { cm with seller := se }
def CarModel.withEquipment (cm : CarModel) (e : Equipment) : CarModel := { cm with equipment := e }
def CarModel.withTiming (cm : CarModel) (t : Timing) : CarModel := { cm with timing := t }
def CarModel.withAdditional (cm : CarModel) (a : Additional) : CarModel := { cm with additional := a }
def CarModel.withSeoUrl (cm : CarModel) (v : Json) : CarModel := { cm with seo_url := v }

/-- The if/elif dispatch on `attr_name` (lines 868-977), in source order.
The three branches whose computation can raise on a non-string value
(`MOTOR_PRICE_BONUS/*` via `.lower()`, `fnmmocount` via `.isdigit()`)
propagate the exception as `none`; all other branches cannot raise.  The
second `ISPRIVATE` test (line 940, targeting `seller.is_private`) is
transcribed exactly where the source has it — under the negation of the
first `ISPRIVATE` test at line 910. -/
def dispatchAttr (cm : CarModel) (name : String) (v values : Json) : Option CarModel :=
  if name = "CAR_MODEL/MAKE" then some (cm.withCarInfo (cm.car_info.setMake v))
  else if name = "CAR_MODEL/MODEL" then some (cm.withCarInfo (cm.car_info.setModel v))
  else if name = "CAR_MODEL/MODEL_SPECIFICATION" then
    some (cm.withCarInfo (cm.car_info.setModelSpecification v))
  else if name = "YEAR_MODEL" then some (cm.withCarInfo (cm.car_info.setYear v))
  else if name = "MILEAGE" then some (cm.withCarInfo (cm.car_info.setMileage v))
  else if name = "ENGINE/FUEL" then some (cm.withCarInfo (cm.car_info.setFuelType v))
  else if name = "ENGINE/FUEL_RESOLVED" then
    some (cm.withCarInfo (cm.car_info.setFuelTypeResolved v))
  else if name = "TRANSMISSION" then some (cm.withCarInfo (cm.car_info.setTransmission v))
  else if name = "TRANSMISSION_RESOLVED" then
    some (cm.withCarInfo (cm.car_info.setTransmissionResolved v))
  else if name = "CONDITION" then some (cm.withCarInfo (cm.car_info.setCondition v))
  else if name = "CONDITION_RESOLVED" then
    some (cm.withCarInfo (cm.car_info.setConditionResolved v))
  else if name = "CAR_TYPE" then some (cm.withCarInfo (cm.car_info.setCarType v))
  else if name = "EXTERIORCOLOURMAIN" then some (cm.withCarInfo (cm.car_info.setExteriorColor v))
  else if name = "ENGINE/EFFECT" then some (cm.withCarInfo (cm.car_info.setEnginePower v))
  else if name = "NOOFSEATS" then some (cm.withCarInfo (cm.car_info.setNoOfSeats v))
  else if name = "WARRANTY" then some (cm.withCarInfo (cm.car_info.setWarranty v))
  else if name = "WARRANTY_RESOLVED" then
    some (cm.withCarInfo (cm.car_info.setWarrantyResolved v))
  else if name = "PRICE" then some (cm.withPricing (cm.pricing.setPrice v))
  else if name = "PRICE_FOR_DISPLAY" then some (cm.withPricing (cm.pricing.setPriceDisplay v))
  else if name = "PRICE/AMOUNT" then some (cm.withPricing (cm.pricing.setPriceAmount v))
  else if name = "ISPRIVATE" then some (cm.withPricing (cm.pricing.setIsPrivate (pyEqOne v)))
  else if name = "MOTOR_PRICE_BONUS/TRADE_IN" then
    (pyLowerEqTrue v).map (fun b => cm.withPricing (cm.pricing.setTradeIn b))
  else if name = "MOTOR_PRICE_BONUS/FINANCE" then
    (pyLowerEqTrue v).map (fun b => cm.withPricing (cm.pricing.setFinance b))
  else if name = "ADDRESS" then some (cm.withLocation (cm.location.setAddress v))
  else if name = "POSTCODE" then some (cm.withLocation (cm.location.setPostcode v))
  else if name = "LOCATION" then some (cm.withLocation (cm.location.setCity v))
  else if name = "STATE" then some (cm.withLocation (cm.location.setState v))
  else if name = "COUNTRY" then some (cm.withLocation (cm.location.setCountry v))
  else if name = "COORDINATES" then some (cm.withLocation (cm.location.setCoordinates v))
  else if name = "DISTRICT" then some (cm.withLocation (cm.location.setDistrict v))
  else if name = "ORGID" then some (cm.withSeller (cm.seller.setOrgId v))
  else if name = "ORGNAME" then some (cm.withSeller (cm.seller.setOrgName v))
  else if name = "ORG_UUID" then some (cm.withSeller (cm.seller.setOrgUuid v))
  else if name = "ISPRIVATE" then some (cm.withSeller (cm.seller.setIsPrivate (pyEqOne v)))
  else if name = "AUTDEALER" then some (cm.withSeller (cm.seller.setIsAutodealer (pyEqOne v)))
  else if name = "AD_SEARCHRESULT_LOGO" then
    some (cm.withSeller (cm.seller.setLogoUrl ("https://cache.willhaben.at/" ++ pyStr v)))
  else if name = "EQUIPMENT" then some (cm.withEquipment (cm.equipment.setIds v))
  else if name = "EQUIPMENT_RESOLVED" then some (cm.withEquipment (cm.equipment.setResolved values))
  else if name = "PUBLISHED" then some (cm.withTiming (cm.timing.setPublished v))
  else if name = "PUBLISHED_String" then some (cm.withTiming (cm.timing.setPublishedString v))
  else if name = "LAST_UPDATED" then some (cm.withTiming (cm.timing.setLastUpdated v))
  else if name = "IS_BUMPED" then some (cm.withTiming (cm.timing.setIsBumped (pyEqOne v)))
  else if name = "DEFECTS_LIABILITY" then
    some (cm.withAdditional (cm.additional.setDefectsLiability (pyEqOne v)))
  else if name = "CONDITION_REPORT" then
    some (cm.withAdditional (cm.additional.setConditionReport (pyEqOne v)))
  else if name = "BODY_DYN" then some (cm.withAdditional (cm.additional.setBodyDyn v))
  else if name = "SOURCE" then some (cm.withAdditional (cm.additional.setSource v))
  else if name = "AD_UUID" then some (cm.withAdditional (cm.additional.setAdUuid v))
  else if name = "fnmmocount" then
    (pyFnmCount v).map (fun n => cm.withAdditional (cm.additional.setFnmmocount n))
  else if name = "SEO_URL" then some (cm.withSeoUrl v)
  else some cm

/-- One iteration of the attribute loop (lines 862-977): the guard
`'name' in attr and 'values' in attr and attr['values']`, the extraction
of `attr_value = attr['values'][0]`, then the name dispatch (a non-string
`attr['name']` matches no branch). -/
def applyAttr (cm : CarModel) (attr : Json) : Option CarModel :=
  match attr.getKey? "name", attr.getKey? "values" with
  | some nameJ, some valuesJ =>
    if valuesJ.truthy then
      match pyIndex0 valuesJ with
      | none => none
      | some v =>
        match nameJ with
        | .str name => dispatchAttr cm name v valuesJ
        | _ => some cm
    else some cm
  | _, _ => some cm

/-- The `'status'` sub-dict (lines 763-767): `advert.get('advertStatus',
dict()).get(...)`; a non-dict `advertStatus` value makes `.get` raise,
failing the whole extraction. -/
def statusOf (advert : Json) : Option CarStatus :=
  match (advert.getKey? "advertStatus").getD (Json.obj []) with
  | .obj kvs =>
    some { id := ((Json.obj kvs).getKey? "id").getD (.str ""),
           description := ((Json.obj kvs).getKey? "description").getD (.str ""),
           statusId := ((Json.obj kvs).getKey? "statusId").getD (.str "") }
  | _ => none

/-- The initial `car_model` dict literal (lines 754-857): top-level fields
read off the advert with `.get` defaults, every nested field initialised to
the literal written in the source (empty string, `False`, `[]`, `0`;
`adTypeId`/`productId`/`verticalId` use `.get`'s `None` default). -/
def initCarModel (advert : Json) (now : String) : Option CarModel :=
  match statusOf advert with
  | none => none
  | some st =>
    some
      { id := pyStr ((advert.getKey? "id").getD (.str "")),
        title := (advert.getKey? "description").getD (.str ""),
        url := (advert.getKey? "selfLink").getD (.str ""),
        seo_url := .str "",
        crawled_at := now,
        status := st,
        adTypeId := (advert.getKey? "adTypeId").getD .null,
        productId := (advert.getKey? "productId").getD .null,
        verticalId := (advert.getKey? "verticalId").getD .null,
        car_info :=
          { make := .str "", model := .str "", model_specification := .str "",
            year := .str "", mileage := .str "", fuel_type := .str "",
            fuel_type_resolved := .str "", transmission := .str "",
            transmission_resolved := .str "", condition := .str "",
            condition_resolved := .str "", car_type := .str "",
            exterior_color := .str "", engine_power := .str "",
            no_of_seats := .str "", warranty := .str "", warranty_resolved := .str "" },
        pricing :=
          { price := .str "", price_display := .str "", price_amount := .str "",
            is_private := false, motor_price_bonus_trade_in := false,
            motor_price_bonus_finance := false },
        location :=
          { address := .str "", postcode := .str "", city := .str "",
            state := .str "", country := .str "", coordinates := .str "",
            district := .str "" },
        seller :=
          { org_id := .str "", org_name := .str "", org_uuid := .str "",
            is_private := false, is_autodealer := false, logo_url := "" },
        images :=
          { main_image := .str "", thumbnail := .str "", all_images := [],
            image_count := 0 },
        equipment := { equipment_ids := .str "", equipment_resolved := .arr [] },
        timing :=
          { published := .str "", published_string := .str "",
            last_updated := .str "", is_bumped := false },
        additional :=
          { defects_liability := false, condition_report := false,
            body_dyn := .str "", source := .str "", ad_uuid := .str "",
            fnmmocount := 0 } }

/-- The image extraction (lines 979-986): guarded by
`'advertImageList' in advert and 'advertImage' in advert['advertImageList']`
and by the truthiness of the image list; `images[0].get(...)` and the
comprehension over `images` require dict elements of a list (anything else
raises, failing the extraction). -/
def extractImages (advert : Json) (cm : CarModel) : Option CarModel :=
  match advert.getKey? "advertImageList" with
  | some ail =>
    match ail.getKey? "advertImage" with
    | some imagesJ =>
      if imagesJ.truthy then
        match imagesJ with
        | .arr imgs =>
          if imgs.all (fun img => match img with | .obj _ => true | _ => false) then
            match imgs with
            | img0 :: _ =>
              some { cm with images :=
                { main_image := (img0.getKey? "mainImageUrl").getD (.str ""),
                  thumbnail := (img0.getKey? "thumbnailImageUrl").getD (.str ""),
                  all_images := imgs.map (fun img => (img.getKey? "mainImageUrl").getD (.str "")),
                  image_count := imgs.length } }
            | [] => some cm
          else none
        | _ => none
      else some cm
    | none => some cm
  | none => some cm

/-- `WillhabenCrawler.extract_car_from_advert` (lines 750-992): build the
initial model from a dict advert, fold the attribute dispatch over
`advert['attributes']['attribute']`, then fill the images; any raised
error anywhere is caught at line 990 and returns `None`. -/
def extract_car_from_advert (advert : Json) (now : String) : Option CarModel :=
  match advert with
  | .obj _ =>
    match initCarModel advert now with
    | none => none
    | some cm0 =>
      let afterAttrs : Option CarModel :=
        match advert.getKey? "attributes" with
        | some attrsJ =>
          if attrsJ.truthy then
            match attrsJ with
            | .obj _ =>
              match (attrsJ.getKey? "attribute").getD (.arr []) with
              | .arr attrs => attrs.foldlM applyAttr cm0
              | _ => none
            | _ => none
          else some cm0
        | none => some cm0
      match afterAttrs with
      | none => none
      | some cm1 => extractImages advert cm1
  | _ => none

lemma dispatchAttr_seller_private (cm : CarModel) (name : String) (v values : Json)
    (cm' : CarModel) (h : dispatchAttr cm name v values = some cm') :
    cm'.seller.is_private = cm.seller.is_private := by
  unfold dispatchAttr at h
  by_cases hc1 : name = "CAR_MODEL/MAKE"
  · rw [if_pos hc1] at h
    injection h with h
    subst h; rfl
  rw [if_neg hc1] at h
  by_cases hc2 : name = "CAR_MODEL/MODEL"
  · rw [if_pos hc2] at h
    injection h with h
    subst h; rfl
  rw [if_neg hc2] at h
  by_cases hc3 : name = "CAR_MODEL/MODEL_SPECIFICATION"
  · rw [if_pos hc3] at h
    injection h with h
    subst h; rfl
  rw [if_neg hc3] at h
  by_cases hc4 : name = "YEAR_MODEL"
  · rw [if_pos hc4] at h
    injection h with h
    subst h; rfl
  rw [if_neg hc4] at h
  by_cases hc5 : name = "MILEAGE"
  · rw [if_pos hc5] at h
    injection h with h
    subst h; rfl
  rw [if_neg hc5] at h
  by_cases hc6 : name = "ENGINE/FUEL"
  · rw [if_pos hc6] at h
    injection h with h
    subst h; rfl
  rw [if_neg hc6] at h
  by_cases hc7 : name = "ENGINE/FUEL_RESOLVED"
  · rw [if_pos hc7] at h
    injection h with h
    subst h; rfl
  rw [if_neg hc7] at h
  by_cases hc8 : name = "TRANSMISSION"
  · rw [if_pos hc8] at h
    injection h with h
    subst h; rfl
  rw [if_neg hc8] at h
  by_cases hc9 : name = "TRANSMISSION_RESOLVED"
  · rw [if_pos hc9] at h
    injection h with h
    subst h; rfl
  rw [if_neg hc9] at h
  by_cases hc10 : name = "CONDITION"
  · rw [if_pos hc10] at h
    injection h with h
    subst h; rfl
  rw [if_neg hc10] at h
  by_cases hc11 : name = "CONDITION_RESOLVED"
  · rw [if_pos hc11] at h
    injection h with h
    subst h; rfl
  rw [if_neg hc11] at h
  by_cases hc12 : name = "CAR_TYPE"
  · rw [if_pos hc12] at h
    injection h with h
    subst h; rfl
  rw [if_neg hc12] at h
  by_cases hc13 : name = "EXTERIORCOLOURMAIN"
  · rw [if_pos hc13] at h
    injection h with h
    subst h; rfl
  rw [if_neg hc13] at h
  by_cases hc14 : name = "ENGINE/EFFECT"
  · rw [if_pos hc14] at h
    injection h with h
    subst h; rfl
  rw [if_neg hc14] at h
  by_cases hc15 : name = "NOOFSEATS"
  · rw [if_pos hc15] at h
    injection h with h
    subst h; rfl
  rw [if_neg hc15] at h
  by_cases hc16 : name = "WARRANTY"
  · rw [if_pos hc16] at h
    injection h with h
    subst h; rfl
  rw [if_neg hc16] at h
  by_cases hc17 : name = "WARRANTY_RESOLVED"
  · rw [if_pos hc17] at h
    injection h with h
    subst h; rfl
  rw [if_neg hc17] at h
  by_cases hc18 : name = "PRICE"
  · rw [if_pos hc18] at h
    injection h with h
    subst h; rfl
  rw [if_neg hc18] at h
  by_cases hc19 : name = "PRICE_FOR_DISPLAY"
  · rw [if_pos hc19] at h
    injection h with h
    subst h; rfl
  rw [if_neg hc19] at h
  by_cases hc20 : name = "PRICE/AMOUNT"
  · rw [if_pos hc20] at h
    injection h with h
    subst h; rfl
  rw [if_neg hc20] at h
  by_cases hc21 : name = "ISPRIVATE"
  · rw [if_pos hc21] at h
    injection h with h
    subst h; rfl
  rw [if_neg hc21] at h
  by_cases hc22 : name = "MOTOR_PRICE_BONUS/TRADE_IN"
  · rw [if_pos hc22] at h
    rw [Option.map_eq_some'] at h
    obtain ⟨b, -, hb⟩ := h
    subst hb; rfl
  rw [if_neg hc22] at h
  by_cases hc23 : name = "MOTOR_PRICE_BONUS/FINANCE"
  · rw [if_pos hc23] at h
    rw [Option.map_eq_some'] at h
    obtain ⟨b, -, hb⟩ := h
    subst hb; rfl
  rw [if_neg hc23] at h
  by_cases hc24 : name = "ADDRESS"
  · rw [if_pos hc24] at h
    injection h with h
    subst h; rfl
  rw [if_neg hc24] at h
  by_cases hc25 : name = "POSTCODE"
  · rw [if_pos hc25] at h
    injection h with h
    subst h; rfl
  rw [if_neg hc25] at h
  by_cases hc26 : name = "LOCATION"
  · rw [if_pos hc26] at h
    injection h with h
    subst h; rfl
  rw [if_neg hc26] at h
  by_cases hc27 : name = "STATE"
  · rw [if_pos hc27] at h
    injection h with h
    subst h; rfl
  rw [if_neg hc27] at h
  by_cases hc28 : name = "COUNTRY"
  · rw [if_pos hc28] at h
    injection h with h
    subst h; rfl
  rw [if_neg hc28] at h
  by_cases hc29 : name = "COORDINATES"
  · rw [if_pos hc29] at h
    injection h with h
    subst h; rfl
  rw [if_neg hc29] at h
  by_cases hc30 : name = "DISTRICT"
  · rw [if_pos hc30] at h
    injection h with h
    subst h; rfl
  rw [if_neg hc30] at h
  by_cases hc31 : name = "ORGID"
  · rw [if_pos hc31] at h
    injection h with h
    subst h; rfl
  rw [if_neg hc31] at h
  by_cases hc32 : name = "ORGNAME"
  · rw [if_pos hc32] at h
    injection h with h
    subst h; rfl
  rw [if_neg hc32] at h
  by_cases hc33 : name = "ORG_UUID"
  · rw [if_pos hc33] at h
    injection h with h
    subst h; rfl
  rw [if_neg hc33] at h
  rw [if_neg hc21] at h
  by_cases hc35 : name = "AUTDEALER"
  · rw [if_pos hc35] at h
    injection h with h
    subst h; rfl
  rw [if_neg hc35] at h
  by_cases hc36 : name = "AD_SEARCHRESULT_LOGO"
  · rw [if_pos hc36] at h
    injection h with h
    subst h; rfl
  rw [if_neg hc36] at h
  by_cases hc37 : name = "EQUIPMENT"
  · rw [if_pos hc37] at h
    injection h with h
    subst h; rfl
  rw [if_neg hc37] at h
  by_cases hc38 : name = "EQUIPMENT_RESOLVED"
  · rw [if_pos hc38] at h
    injection h with h
    subst h; rfl
  rw [if_neg hc38] at h
  by_cases hc39 : name = "PUBLISHED"
  · rw [if_pos hc39] at h
    injection h with h
    subst h; rfl
  rw [if_neg hc39] at h
  by_cases hc40 : name = "PUBLISHED_String"
  · rw [if_pos hc40] at h
    injection h with h
    subst h; rfl
  rw [if_neg hc40] at h
  by_cases hc41 : name = "LAST_UPDATED"
  · rw [if_pos hc41] at h
    injection h with h
    subst h; rfl
  rw [if_neg hc41] at h
  by_cases hc42 : name = "IS_BUMPED"
  · rw [if_pos hc42] at h
    injection h with h
    subst h; rfl
  rw [if_neg hc42] at h
  by_cases hc43 : name = "DEFECTS_LIABILITY"
  · rw [if_pos hc43] at h
    injection h with h
    subst h; rfl
  rw [if_neg hc43] at h
  by_cases hc44 : name = "CONDITION_REPORT"
  · rw [if_pos hc44] at h
    injection h with h
    subst h; rfl
  rw [if_neg hc44] at h
  by_cases hc45 : name = "BODY_DYN"
  · rw [if_pos hc45] at h
    injection h with h
    subst h; rfl
  rw [if_neg hc45] at h
  by_cases hc46 : name = "SOURCE"
  · rw [if_pos hc46] at h
    injection h with h
    subst h; rfl
  rw [if_neg hc46] at h
  by_cases hc47 : name = "AD_UUID"
  · rw [if_pos hc47] at h
    injection h with h
    subst h; rfl
  rw [if_neg hc47] at h
  by_cases hc48 : name = "fnmmocount"
  · rw [if_pos hc48] at h
    rw [Option.map_eq_some'] at h
    obtain ⟨b, -, hb⟩ := h
    subst hb; rfl
  rw [if_neg hc48] at h
  by_cases hc49 : name = "SEO_URL"
  · rw [if_pos hc49] at h
    injection h with h
    subst h; rfl
  rw [if_neg hc49] at h
  injection h with h
  subst h; rfl

lemma applyAttr_seller_private (cm : CarModel) (attr : Json) (cm' : CarModel)
    (h : applyAttr cm attr = some cm') :
    cm'.seller.is_private = cm.seller.is_private := by
  unfold applyAttr at h
  cases hn : attr.getKey? "name" with
  | none => rw [hn] at h; simp at h; subst h; rfl
  | some nameJ =>
    cases hv : attr.getKey? "values" with
    | none => rw [hn, hv] at h; simp at h; subst h; rfl
    | some valuesJ =>
      rw [hn, hv] at h
      dsimp only at h
      by_cases ht : valuesJ.truthy
      · rw [if_pos ht] at h
        cases hi : pyIndex0 valuesJ with
        | none => rw [hi] at h; simp at h
        | some v =>
          rw [hi] at h
          cases nameJ with
          | str name => exact dispatchAttr_seller_private cm name v valuesJ cm' h
          | null => simp at h; subst h; rfl
          | bool b => simp at h; subst h; rfl
          | num n => simp at h; subst h; rfl
          | arr l => simp at h; subst h; rfl
          | obj kvs => simp at h; subst h; rfl
      · rw [if_neg ht] at h
        simp at h; subst h; rfl

lemma foldlM_applyAttr_seller_private :
    ∀ (attrs : List Json) (cm cm' : CarModel),
      attrs.foldlM applyAttr cm = some cm' →
      cm'.seller.is_private = cm.seller.is_private := by
  intro attrs
  induction attrs with
  | nil =>
    intro cm cm' h
    simp only [List.foldlM_nil] at h
    injection h with h
    subst h; rfl
  | cons a rest ih =>
    intro cm cm' h
    rw [List.foldlM_cons] at h
    cases ha : applyAttr cm a with
    | none => rw [ha] at h; simp at h
    | some cm1 =>
      rw [ha] at h
      simp only [Option.bind_eq_bind, Option.some_bind] at h
      rw [ih cm1 cm' h]
      exact applyAttr_seller_private cm a cm1 ha

lemma initCarModel_seller_private (advert : Json) (now : String) (cm : CarModel)
    (h : initCarModel advert now = some cm) : cm.seller.is_private = false := by
  unfold initCarModel at h
  cases hs : statusOf advert with
  | none => rw [hs] at h; simp at h
  | some st =>
    rw [hs] at h
    injection h with h
    subst h; rfl

lemma extractImages_seller (advert : Json) (cm cm' : CarModel)
    (h : extractImages advert cm = some cm') : cm'.seller = cm.seller := by
  unfold extractImages at h
  cases h1 : advert.getKey? "advertImageList" with
  | none => rw [h1] at h; dsimp only at h; injection h with h; subst h; rfl
  | some ail =>
    rw [h1] at h
    dsimp only at h
    cases h2 : ail.getKey? "advertImage" with
    | none => rw [h2] at h; dsimp only at h; injection h with h; subst h; rfl
    | some imagesJ =>
      rw [h2] at h
      dsimp only at h
      by_cases ht : imagesJ.truthy
      · rw [if_pos ht] at h
        cases imagesJ with
        | arr imgs =>
          dsimp only at h
          by_cases hall : imgs.all (fun img => match img with | .obj _ => true | _ => false)
          · rw [if_pos hall] at h
            cases imgs with
            | nil => injection h with h; subst h; rfl
            | cons img0 rest => injection h with h; subst h; rfl
          · rw [if_neg hall] at h; simp at h
        | null => simp at h
        | bool b => simp at h
        | num n => simp at h
        | str s => simp at h
        | obj kvs => simp at h
      · rw [if_neg ht] at h
        injection h with h; subst h; rfl

/-- **C9** (confirmed). For every advert, the extracted record's
`seller.is_private` is `False`: the second `ISPRIVATE` branch of the
dispatch chain (line 940) sits under the negation of the first one
(line 910) and is therefore unreachable, and nothing else ever writes the
seller flag. -/
theorem extract_car_seller_private_always_false (advert : Json) (now : String) (cm : CarModel)
    (h : extract_car_from_advert advert now = some cm) :
    cm.seller.is_private = false := by
  unfold extract_car_from_advert at h
  cases advert with
  | obj kvs =>
    revert h
    cases hinit : initCarModel (.obj kvs) now with
    | none => intro h; simp at h
    | some cm0 =>
      have hcm0 : cm0.seller.is_private = false :=
        initCarModel_seller_private (.obj kvs) now cm0 hinit
      cases hattr : (Json.obj kvs).getKey? "attributes" with
      | none =>
        intro h
        simp only [hattr] at h
        rw [(extractImages_seller (.obj kvs) cm0 cm h : cm.seller = cm0.seller)]
        exact hcm0
      | some attrsJ =>
        by_cases ht : attrsJ.truthy
        · cases attrsJ with
          | obj akvs =>
            cases hat : ((Json.obj akvs).getKey? "attribute").getD (.arr []) with
            | arr attrs =>
              intro h
              simp only [hattr, if_pos ht, hat] at h
              revert h
              cases hfold : attrs.foldlM applyAttr cm0 with
              | none => intro h; simp at h
              | some cm1 =>
                intro h
                simp only [] at h
                have h1 : cm1.seller.is_private = cm0.seller.is_private :=
                  foldlM_applyAttr_seller_private attrs cm0 cm1 hfold
                rw [(extractImages_seller (.obj kvs) cm1 cm h : cm.seller = cm1.seller)]
                rw [h1]
                exact hcm0
            | null => intro h; simp [hattr, if_pos ht, hat] at h
            | bool b => intro h; simp [hattr, if_pos ht, hat] at h
            | num n => intro h; simp [hattr, if_pos ht, hat] at h
            | str s => intro h; simp [hattr, if_pos ht, hat] at h
            | obj o => intro h; simp [hattr, if_pos ht, hat] at h
          | null => intro h; simp [hattr, if_pos ht] at h
          | bool b => intro h; simp [hattr, if_pos ht] at h
          | num n => intro h; simp [hattr, if_pos ht] at h
          | str s => intro h; simp [hattr, if_pos ht] at h
          | arr l => intro h; simp [hattr, if_pos ht] at h
        · intro h
          simp only [hattr, if_neg ht] at h
          rw [(extractImages_seller (.obj kvs) cm0 cm h : cm.seller = cm0.seller)]
          exact hcm0
  | null => simp at h
  | bool b => simp at h
  | num n => simp at h
  | str s => simp at h
  | arr l => simp at h

/-- A concrete advert carrying an `ISPRIVATE = '1'` attribute, for the C9
witness. -/
def advertWithIsPrivate : Json :=
  Json.obj
    [("id", .str "12345"),
     ("attributes",
      .obj [("attribute",
        .arr [.obj [("name", .str "ISPRIVATE"), ("values", .arr [.str "1"])]])])]

/-- Concrete instantiation of `extract_car_seller_private_always_false`:
even on an advert whose `ISPRIVATE` attribute is `'1'`, the extracted
seller flag stays `False` (the value lands in `pricing.is_private`
instead). -/
theorem extract_car_seller_private_witness :
    ((extract_car_from_advert advertWithIsPrivate "t").getD default).seller.is_private = false :=
  extract_car_seller_private_always_false advertWithIsPrivate "t"
    ((extract_car_from_advert advertWithIsPrivate "t").getD default) rfl

/-! ## `WillhabenCrawler.parse_next_data` (lines 620-660) and the parse
phase of `crawl_once` (lines 1062-1069) -/

/-- A fetched page body as `parse_next_data` discriminates it: the
`__NEXT_DATA__` script tag is absent or empty (line 629), its content is
not valid JSON (`json.JSONDecodeError`, line 655), or it parsed to a JSON
value. -/
inductive Page where
  | noScript
  | badJson
  | payload (j : Json)

/-- The fixed navigation
`json_data['props']['pageProps']['searchResult']['advertSummaryList']['advertSummary']`
(line 638); a missing key raises `KeyError` (caught at line 652), a
non-dict intermediate raises `TypeError` (caught at line 657) — both
modelled as `none`. -/
def advertSummaryPath (j : Json) : Option Json :=
  ((((j.getKey? "props").bind (fun x => x.getKey? "pageProps")).bind
      (fun x => x.getKey? "searchResult")).bind
      (fun x => x.getKey? "advertSummaryList")).bind
      (fun x => x.getKey? "advertSummary")

/-- `WillhabenCrawler.parse_next_data` (lines 620-660): on a missing
script, malformed JSON, failed navigation or a non-list result the
accumulated `listings` (still empty) is returned; otherwise each advert is
extracted, per-advert errors are skipped (line 648), and a model with a
falsy `id` is dropped (line 644). -/
def parse_next_data (page : Page) (now : String) : List CarModel :=
  match page with
  | .noScript => []
  | .badJson => []
  | .payload j =>
    match advertSummaryPath j with
    | some (.arr adverts) =>
      adverts.filterMap (fun a =>
        match extract_car_from_advert a now with
        | some cm => if cm.id ≠ "" then some cm else none
        | none => none)
    | _ => []

/-- The parse phase of `crawl_once` (lines 1062-1069): try
`parse_next_data` first; exactly when it produced no listings, fall back to
`parse_car_listings` (the heuristic BeautifulSoup scan, whose result is the
`fallback` parameter).  Returns the chosen listings and whether the
fallback ran. -/
def crawl_once_parse (page : Page) (fallback : List CarModel) (now : String) :
    List CarModel × Bool :=
  let listings := parse_next_data page now
  if listings.isEmpty then (fallback, true) else (listings, false)

/-- **C4** (confirmed). `parse_next_data` returns `[]` (without raising)
when the embedded payload is absent, is malformed JSON, or lacks the known
result-list path; and `crawl_once` invokes the heuristic fallback parser
exactly when the structured strategy yields zero entries. -/
theorem parse_next_data_graceful_fallback (now : String) :
    parse_next_data Page.noScript now = [] ∧
    parse_next_data Page.badJson now = [] ∧
    (∀ j : Json, advertSummaryPath j = none → parse_next_data (Page.payload j) now = []) ∧
    (∀ (page : Page) (fallback : List CarModel),
      (crawl_once_parse page fallback now).2 = true ↔ parse_next_data page now = []) := by
  refine ⟨rfl, rfl, ?_, ?_⟩
  · intro j hj
    unfold parse_next_data
    dsimp only
    rw [hj]
  · intro page fallback
    unfold crawl_once_parse
    by_cases h : (parse_next_data page now).isEmpty
    · rw [if_pos h]
      simp only [true_iff]
      exact List.isEmpty_iff.mp h
    · rw [if_neg h]
      simp only [Bool.false_eq_true, false_iff]
      intro hcontra
      exact h (by rw [hcontra]; rfl)

/-- Concrete instantiation of `parse_next_data_graceful_fallback`: a
payload whose `props` object lacks `pageProps` (so the result-list path is
missing) parses to zero listings, and the parse phase of `crawl_once`
reports that the fallback ran. -/
theorem parse_next_data_graceful_fallback_witness :
    parse_next_data (Page.payload (Json.obj [("props", Json.obj [])])) "t" = [] ∧
    (crawl_once_parse (Page.payload (Json.obj [("props", Json.obj [])])) [] "t").2 = true :=
  ⟨(parse_next_data_graceful_fallback "t").2.2.1 (Json.obj [("props", Json.obj [])]) rfl,
   ((parse_next_data_graceful_fallback "t").2.2.2
      (Page.payload (Json.obj [("props", Json.obj [])])) []).mpr
     ((parse_next_data_graceful_fallback "t").2.2.1 (Json.obj [("props", Json.obj [])]) rfl)⟩

/-! ## Websocket message payloads (`crawl_loop` lines 1114-1123,
`convert_car_model_for_websocket` lines 1142-1191, `websocket_endpoint`
lines 1655-1690) -/

/-- `WillhabenCrawler.convert_car_model_for_websocket` (lines 1142-1191)
on a model built by `extract_car_from_advert`: every key read with `.get`
is present in the nested dicts (initialised at lines 754-857), so the
`.get` fallbacks (`price`, `fuel_type`, `address`, `thumbnail`,
`transmission`) never fire here, and the try-block cannot raise; fields
in source order. -/
def convert_car_model_for_websocket (cm : CarModel) : Json :=
  .obj
    [("id", .str cm.id),
     ("title", cm.title),
     ("price", cm.pricing.price_display),
     ("year", cm.car_info.year),
     ("mileage", cm.car_info.mileage),
     ("fuel", cm.car_info.fuel_type_resolved),
     ("brand", cm.car_info.make),
     ("model", cm.car_info.model),
     ("location", cm.location.city),
     ("seller", cm.seller.org_name),
     ("url", cm.url),
     ("image_url", cm.images.main_image),
     ("crawled_at", .str cm.crawled_at),
     ("source", .str "willhaben.at"),
     ("transmission", cm.car_info.transmission_resolved),
     ("last_updated", cm.timing.last_updated)]

/-- The broadcast message `crawl_loop` builds per new listing
(lines 1119-1123): one message per listing, with the single converted
listing object under `data` and no `count` field. -/
def new_listing_message (cm : CarModel) (now : String) : Json :=
  .obj
    [("type", .str "new_listing"),
     ("data", convert_car_model_for_websocket cm),
     ("timestamp", .str now)]

/-- The welcome message `websocket_endpoint` sends on registration
(lines 1662-1669). -/
def welcome_message (now : String) : Json :=
  .obj
    [("type", .str "welcome"),
     ("message", .str "Connected to Willhaben Crawler"),
     ("timestamp", .str now)]

/-- The liveness reply (line 1679) is the plain text `pong`, not a JSON
object. -/
def pong_message : String := "pong"

/-- The message shape claim C5 asserts for every subscriber-bound message:
a `type` among the three listed, a `data` field holding a list, and
`timestamp` and `count` fields. -/
def claimedMessageShape (m : Json) : Prop :=
  (∃ t : String, m.getKey? "type" = some (.str t) ∧
    (t = "new_listings_update" ∨ t = "welcome" ∨ t = "initial_listings")) ∧
  (∃ l : List Json, m.getKey? "data" = some (.arr l)) ∧
  (m.getKey? "timestamp").isSome = true ∧
  (m.getKey? "count").isSome = true

/-- **C5 counterexample**. The per-listing broadcast message violates the
claimed shape: its type is `new_listing` (not one of the three listed
values), its `data` is a single object rather than a list, and it carries
no `count` field — shown here by the missing `count`. -/
theorem message_shape_counterexample :
    ¬claimedMessageShape (new_listing_message default "2024-01-01T00:00:00") := by
  intro h
  obtain ⟨-, -, -, hcount⟩ := h
  have hc : (new_listing_message default "2024-01-01T00:00:00").getKey? "count" = none := rfl
  rw [hc] at hcount
  simp at hcount

/-- **C5** (corrected). The messages the backend actually sends are: per
new listing one JSON object of type `new_listing` whose `data` is the
single converted listing object (not a list) with a `timestamp` and no
`count`; and on registration a JSON object of type `welcome` with a
`message` and `timestamp` but no `data` and no `count` (plus the plain
text `pong` reply, which is not JSON at all). -/
theorem websocket_message_shapes (cm : CarModel) (now : String) :
    (new_listing_message cm now).getKey? "type" = some (.str "new_listing") ∧
    (new_listing_message cm now).getKey? "data" = some (convert_car_model_for_websocket cm) ∧
    (new_listing_message cm now).getKey? "timestamp" = some (.str now) ∧
    (new_listing_message cm now).getKey? "count" = none ∧
    (∃ kvs, convert_car_model_for_websocket cm = .obj kvs) ∧
    (welcome_message now).getKey? "type" = some (.str "welcome") ∧
    (welcome_message now).getKey? "message" = some (.str "Connected to Willhaben Crawler") ∧
    (welcome_message now).getKey? "timestamp" = some (.str now) ∧
    (welcome_message now).getKey? "data" = none ∧
    (welcome_message now).getKey? "count" = none :=
  ⟨rfl, rfl, rfl, rfl, ⟨_, rfl⟩, rfl, rfl, rfl, rfl, rfl⟩

/-! ## `websocket_endpoint` registration phase (lines 1655-1669) -/

/-- `WebSocketManager.connect` (lines 433-437): accept the socket and
append it to `active_connections`. -/
def ws_connect (active : List Nat) (conn : Nat) : List Nat :=
  active ++ [conn]

/-- The registration phase of `websocket_endpoint` (lines 1655-1669):
register the connection, then send exactly one message — the welcome
acknowledgment.  The endpoint then enters its receive loop; no snapshot
of previously seen listings is ever sent (the backend keeps no store of
past listing records to snapshot — only the id set `seen_ids`). -/
def websocket_endpoint_connect (active : List Nat) (conn : Nat) (now : String) :
    List Nat × List Json :=
  (ws_connect active conn, [welcome_message now])

/-- **C8 counterexample**. On a concrete registration the sent-message
sequence is not a welcome followed by a snapshot: it is the single welcome
message and nothing else. -/
theorem websocket_connect_no_snapshot_counterexample :
    ¬(((websocket_endpoint_connect [] 1 "t").2.map (fun m => m.getKey? "type"))
        = [some (Json.str "welcome"), some (Json.str "initial_listings")]) := by
  intro h
  have h0 : ((websocket_endpoint_connect [] 1 "t").2.map (fun m => m.getKey? "type"))
      = [some (Json.str "welcome")] := rfl
  rw [h0] at h
  simp at h

/-- **C8** (corrected). Upon registration the subscriber is appended to
the connection list and is sent exactly one message, the welcome
acknowledgment of type `welcome`; no snapshot of history follows. -/
theorem websocket_connect_welcome_only (active : List Nat) (conn : Nat) (now : String) :
    (websocket_endpoint_connect active conn now).1 = active ++ [conn] ∧
    (websocket_endpoint_connect active conn now).2 = [welcome_message now] ∧
    (welcome_message now).getKey? "type" = some (.str "welcome") :=
  ⟨rfl, rfl, rfl⟩

/-! ## `ProxyManager` (lines 309-419) and
`FreeProxyManager.fetch_and_test_proxies` (lines 219-302) -/

/-- `Config.MAX_FREE_PROXIES` (line 66). -/
def MAX_FREE_PROXIES : Nat := 50

/-- `Config.PROXY_FETCH_INTERVAL` (line 67), seconds. -/
def PROXY_FETCH_INTERVAL : Nat := 300

/-- The `ProxyManager` state: `proxy_list` (a Python list) and
`failed_proxies` (a set, modelled as a duplicate-free list), plus the
rate-limit timestamp (seconds, `none` before the first successful fetch). -/
structure ProxyManagerState where
  proxy_list : List String
  failed_proxies : List String
  last_fetch_time : Option Nat
  deriving Repr

/-- `ProxyManager.__init__` (lines 312-318) with the shipped
`Config.PROXY_LIST = []` (lines 52-58): no manual proxies. -/
def initialProxyState : ProxyManagerState :=
  { proxy_list := [], failed_proxies := [], last_fetch_time := none }

/-- Python `list(set(xs))`: duplicates removed (iteration order of the set
is abstracted; every capacity claim is about cardinality only, which this
preserves exactly). -/
def pyDedup : List String → List String
  | [] => []
  | x :: xs => if x ∈ xs then pyDedup xs else x :: pyDedup xs

/-- The proxies `ProxyManager` currently offers: `proxy_list` minus the
failed set (lines 335, 357, 379, 411). -/
def available_proxies (st : ProxyManagerState) : List String :=
  st.proxy_list.filter (fun p => !st.failed_proxies.contains p)

/-- `ProxyManager.mark_proxy_failed` (lines 368-372): add the proxy to the
failed set (an empty string is falsy and ignored). -/
def mark_proxy_failed (st : ProxyManagerState) (proxy : String) : ProxyManagerState :=
  if proxy = "" then st
  else { st with failed_proxies :=
    if st.failed_proxies.contains proxy then st.failed_proxies else proxy :: st.failed_proxies }

/-- `FreeProxyManager.fetch_and_test_proxies` (lines 219-302), result
shape: candidates from all sources are deduplicated (line 238), at most
`min(Config.MAX_FREE_PROXIES, 50) = 50` of them are tested (lines
245-246), and those the test oracle `isWorking` (network test plus cache,
lines 248-297) accepts are returned. -/
def fetch_and_test_proxies (candidates : List String) (isWorking : String → Bool) :
    List String :=
  ((pyDedup candidates).take 50).filter isWorking

/-- The body of `ProxyManager.fetch_free_proxies` past the rate-limit gate
(lines 393-405): when any working proxies were found, extend `proxy_list`,
deduplicate it (`list(set(...))`), and record the fetch time. -/
def fetch_free_proxies_core (st : ProxyManagerState) (now : Nat)
    (candidates : List String) (isWorking : String → Bool) : ProxyManagerState :=
  let free := fetch_and_test_proxies candidates isWorking
  if free.isEmpty then st
  else { st with proxy_list := pyDedup (st.proxy_list ++ free), last_fetch_time := some now }

/-- `ProxyManager.fetch_free_proxies` (lines 382-405): no-op within
`PROXY_FETCH_INTERVAL` seconds of the last successful fetch, otherwise
fetch, test and merge. -/
def fetch_free_proxies (st : ProxyManagerState) (now : Nat)
    (candidates : List String) (isWorking : String → Bool) : ProxyManagerState :=
  match st.last_fetch_time with
  | some t =>
    if now - t < PROXY_FETCH_INTERVAL then st
    else fetch_free_proxies_core st now candidates isWorking
  | none => fetch_free_proxies_core st now candidates isWorking

/-- First replenishment batch for the C6 counterexample: 50 distinct
addresses. -/
def proxyBatchA : List String := (List.range 50).map (fun i => "http://a" ++ toString i ++ ":80")

/-- Second replenishment batch for the C6 counterexample: one more
distinct address. -/
def proxyBatchB : List String := ["http://b0:80"]

/-- **C6 counterexample**. Two free-proxy replenishments 1000 s apart
(each within the per-fetch test cap of 50) leave 51 offerable proxies —
the collection exceeds `MAX_FREE_PROXIES = 50`, refuting the claimed
capacity invariant. -/
theorem proxy_pool_capacity_counterexample :
    ¬((available_proxies
        (fetch_free_proxies
          (fetch_free_proxies initialProxyState 0 proxyBatchA (fun _ => true))
          1000 proxyBatchB (fun _ => true))).length ≤ MAX_FREE_PROXIES) := by
  intro h
  have hlen : (available_proxies
      (fetch_free_proxies
        (fetch_free_proxies initialProxyState 0 proxyBatchA (fun _ => true))
        1000 proxyBatchB (fun _ => true))).length = 51 := by decide
  rw [hlen] at h
  exact absurd h (by decide)

lemma pyDedup_length_le : ∀ l : List String, (pyDedup l).length ≤ l.length := by
  intro l
  induction l with
  | nil => simp [pyDedup]
  | cons x xs ih =>
    unfold pyDedup
    by_cases h : x ∈ xs
    · rw [if_pos h]
      exact Nat.le_succ_of_le ih
    · rw [if_neg h]
      simpa using ih

/-- **C6** (corrected). The pool has no capacity eviction at all: what is
bounded is only each single replenishment — one `fetch_free_proxies` tests
at most 50 candidates, so starting from the shipped initial configuration
(no manual proxies) a single replenishment leaves at most
`MAX_FREE_PROXIES = 50` offerable proxies; across replenishments the
collection grows without bound (counterexample above). -/
theorem fetch_free_proxies_single_batch_bound (now : Nat) (candidates : List String)
    (isWorking : String → Bool) :
    (available_proxies (fetch_free_proxies initialProxyState now candidates isWorking)).length
      ≤ MAX_FREE_PROXIES := by
  show (available_proxies
      (fetch_free_proxies_core initialProxyState now candidates isWorking)).length ≤ _
  unfold fetch_free_proxies_core
  by_cases h : (fetch_and_test_proxies candidates isWorking).isEmpty
  · rw [if_pos h]
    exact Nat.zero_le _
  · rw [if_neg h]
    calc (available_proxies
          { initialProxyState with
            proxy_list := pyDedup ([] ++ fetch_and_test_proxies candidates isWorking),
            last_fetch_time := some now }).length
        ≤ (pyDedup ([] ++ fetch_and_test_proxies candidates isWorking)).length :=
          List.length_filter_le _ _
      _ ≤ ([] ++ fetch_and_test_proxies candidates isWorking).length :=
          pyDedup_length_le _
      _ = (fetch_and_test_proxies candidates isWorking).length := by simp
      _ ≤ ((pyDedup candidates).take 50).length := List.length_filter_le _ _
      _ ≤ 50 := List.length_take_le _ _

/-! ## `WillhabenCrawler.crawl_loop` (lines 1094-1135)

Durations are exact rationals: the floats `3.0`, `0.5`, `2.0` in the
config are binary-exact, and the loop only ever adds them. -/

/-- `Config.CRAWL_INTERVAL` (line 40), seconds. -/
def CRAWL_INTERVAL : ℚ := 3

/-- `Config.MIN_DELAY` (line 45), seconds. -/
def MIN_DELAY : ℚ := 1 / 2

/-- `Config.MAX_DELAY` (line 46), seconds. -/
def MAX_DELAY : ℚ := 2

/-- What one pass of the `while` body produces: the duration passed to
`asyncio.sleep` before the next `while` test, and the fact that control
returns to that test. -/
structure IterOutcome where
  slept : ℚ
  continuesLoop : Bool

/-- One iteration of the `while self.is_running` loop (lines 1103-1135):
if the flag is down the loop exits (`none`); otherwise the body runs — an
iteration whose body raises is caught at line 1133, logged, and followed
by `asyncio.sleep(CRAWL_INTERVAL)`, while an error-free iteration ends
with `asyncio.sleep(CRAWL_INTERVAL + jitter)` for a jitter drawn
uniformly from `[MIN_DELAY, MAX_DELAY]` (line 1130); either way control
returns to the `while` test. -/
def crawl_loop_iter (is_running errorRaised : Bool) (jitter : ℚ) : Option IterOutcome :=
  if is_running then
    some { slept := if errorRaised then CRAWL_INTERVAL else CRAWL_INTERVAL + jitter,
           continuesLoop := true }
  else none

/-- **C7** (confirmed, with "the normal interval" read as the configured
base poll interval `CRAWL_INTERVAL` — the spec's "fixed base delay"; the
random jitter is added only on error-free iterations).  Every iteration
whose body raises logs and then sleeps exactly the base interval; no
iteration, error or not, sleeps less than the base interval; and an error
never terminates the loop — the loop runs exactly as long as the running
flag is set. -/
theorem crawl_loop_error_keeps_cadence (errorRaised : Bool) (jitter : ℚ)
    (hj : MIN_DELAY ≤ jitter) :
    (∃ o : IterOutcome, crawl_loop_iter true errorRaised jitter = some o ∧
      o.continuesLoop = true ∧
      CRAWL_INTERVAL ≤ o.slept ∧
      (errorRaised = true → o.slept = CRAWL_INTERVAL)) ∧
    (∀ r : Bool, crawl_loop_iter r errorRaised jitter = none ↔ r = false) := by
  constructor
  · refine ⟨_, rfl, rfl, ?_, ?_⟩
    · cases errorRaised with
      | true => simp
      | false =>
        simp only [Bool.false_eq_true, if_false]
        have h0 : (0 : ℚ) ≤ jitter := le_trans (by norm_num [MIN_DELAY]) hj
        linarith
    · intro he
      rw [he]
      simp
  · intro r
    cases r with
    | true => simp [crawl_loop_iter]
    | false => simp [crawl_loop_iter]

/-- Concrete instantiation of `crawl_loop_error_keeps_cadence` at jitter
1 s with an erroring body: the loop iteration still happens (flag up) and
the loop exits exactly when the flag is down. -/
theorem crawl_loop_error_keeps_cadence_witness :
    crawl_loop_iter false true 1 = none :=
  ((crawl_loop_error_keeps_cadence true 1 (by norm_num [MIN_DELAY])).2 false).mpr rfl
